import Mathlib

/-!
Shallow embedding of the retrieval-and-confidence-tiered-generation core of
the legal-rag-india repository (src/vector_store.py and src/rag_service.py).

Conventions of the embedding:
* Vectors are rational-valued lists (`List ℚ`).  The FAISS index scores a
  query against every stored vector by inner product; `faiss.normalize_L2`
  is an irrational (square-root) operation on float32 buffers, so the model
  takes the already-normalized vectors as inputs.  The properties proved
  below (result counts, membership, threshold monotonicity, batch/single
  agreement, tier selection) hold for arbitrary rational scores and are
  therefore independent of that representation choice.
* The FAISS call `index.search(q, k)` always returns exactly `k`
  (score, index) slots, padding with a sentinel index of -1 and a huge
  negative score when fewer than `k` vectors are stored; `topkSelect`
  models this, selecting the top `k` scores in descending order with ties
  broken by insertion order (a stable sort).
* Python exceptions are modelled with `Except String`.
* The external collaborators (embedding model, Groq chat completion,
  on-disk document store) are opaque function parameters.
-/

namespace LegalRag

/-- Metadata dict attached to one document.  The Python side stores a dict
and reads fields with `.get(key, "Unknown")`, so every field is optional. -/
structure DocMetadata where
  title : Option String
  court : Option String
  date : Option String
  casenumber : Option String
deriving DecidableEq

/-- Embedding vector (rational-valued model of a float32 row). -/
abbrev Vec := List ℚ

/-- Inner product of two vectors, the score `IndexFlatIP` assigns. -/
def dot (u v : Vec) : ℚ := (List.zipWith (fun a b => a * b) u v).sum

/-- State of `VectorStore` (src/vector_store.py): the FAISS index (`none`
until built/loaded, modelled by its list of stored vectors) and the two
parallel lists `doc_ids` and `metadata`. -/
structure VectorStore where
  dimension : ℕ
  index : Option (List Vec)
  doc_ids : List String
  metadata : List DocMetadata
deriving DecidableEq

/-- Fresh store, as `VectorStore.__init__`. -/
def VectorStore.init (dimension : ℕ) : VectorStore :=
  { dimension := dimension, index := none, doc_ids := [], metadata := [] }

/-- Sentinel score FAISS places in unfilled result slots (model of
`-FLT_MAX`). -/
def paddingScore : ℚ := mkRat (-340282366920938463463374607431768211455) 1

/-- Scores of a query against every stored vector, paired with the vector's
position in the index, starting at position `i`. -/
def scoredEntriesAux (q : Vec) : List Vec → ℤ → List (ℚ × ℤ)
  | [], _ => []
  | v :: vs, i => (dot q v, i) :: scoredEntriesAux q vs (i + 1)

/-- Scores of a query against every stored vector, paired with positions
0, 1, 2, ... -/
def scoredEntries (vecs : List Vec) (q : Vec) : List (ℚ × ℤ) :=
  scoredEntriesAux q vecs 0

/-- Insert an entry into a descending-sorted list, after all entries of
equal score (so that the sort below is stable). -/
def insertDesc (x : ℚ × ℤ) : List (ℚ × ℤ) → List (ℚ × ℤ)
  | [] => [x]
  | y :: ys => if y.1 ≤ x.1 then x :: y :: ys else y :: insertDesc x ys

/-- Stable sort by descending score (ties keep insertion order). -/
def sortDesc : List (ℚ × ℤ) → List (ℚ × ℤ)
  | [] => []
  | x :: xs => insertDesc x (sortDesc xs)

/-- Model of the raw FAISS call `index.search(q, k)` on a flat
inner-product index: the `k` best (score, index) slots in descending score
order, padded with `(paddingScore, -1)` slots when fewer than `k` vectors
are stored. -/
def topkSelect (entries : List (ℚ × ℤ)) (k : ℕ) : List (ℚ × ℤ) :=
  (sortDesc entries).take k ++ List.replicate (k - entries.length) (paddingScore, -1)

/-- One formatted search result (`{"doc_id": ..., "score": ..., "metadata": ...}`). -/
structure SearchResult where
  doc_id : String
  score : ℚ
  metadata : DocMetadata
deriving DecidableEq

/-- The `score_threshold` guard of `VectorStore.search`: skip the entry when
a threshold is supplied and the score is below it. -/
def thresholdSkip (threshold : Option ℚ) (s : ℚ) : Bool :=
  match threshold with
  | some t => decide (s < t)
  | none => false

/-- Result-formatting loop of `VectorStore.search` (lines 106-121): skip
entries below the threshold, skip invalid indices, then read
`doc_ids[idx]` and `metadata[idx]`.  The `metadata[idx]` access is guarded
only by `len(doc_ids)`, so on an inconsistent store it can raise
`IndexError`, which the model surfaces as `Except.error`. -/
def formatResults (ids : List String) (md : List DocMetadata) (threshold : Option ℚ) :
    List (ℚ × ℤ) → Except String (List SearchResult)
  | [] => .ok []
  | (s, idx) :: rest =>
    if thresholdSkip threshold s then formatResults ids md threshold rest
    else if idx < 0 ∨ (ids.length : ℤ) ≤ idx then formatResults ids md threshold rest
    else
      match ids[idx.toNat]?, md[idx.toNat]? with
      | some d, some m =>
        (formatResults ids md threshold rest).map (fun rs => ⟨d, s, m⟩ :: rs)
      | _, _ => .error "IndexError: list index out of range"

/-- Model of `VectorStore.search`: raises when the index is not built,
otherwise runs the FAISS top-k search followed by the formatting loop. -/
def VectorStore.search (vs : VectorStore) (q : Vec) (k : ℕ) (threshold : Option ℚ) :
    Except String (List SearchResult) :=
  match vs.index with
  | none => .error "Index not built. Call build_index() first."
  | some vecs => formatResults vs.doc_ids vs.metadata threshold (topkSelect (scoredEntries vecs q) k)

/-- Inner loop of `VectorStore.batch_search` for one query row (lines
152-162): no threshold, keep entries with `idx >= 0 and idx < len(doc_ids)`,
read `doc_ids[idx]` and `metadata[idx]`. -/
def batchFormatRow (ids : List String) (md : List DocMetadata) :
    List (ℚ × ℤ) → Except String (List SearchResult)
  | [] => .ok []
  | (s, idx) :: rest =>
    if 0 ≤ idx ∧ idx < (ids.length : ℤ) then
      match ids[idx.toNat]?, md[idx.toNat]? with
      | some d, some m =>
        (batchFormatRow ids md rest).map (fun rs => ⟨d, s, m⟩ :: rs)
      | _, _ => .error "IndexError: list index out of range"
    else batchFormatRow ids md rest

/-- Outer loop of `VectorStore.batch_search`: one result list per query
row, rows processed left to right, a raised `IndexError` aborting the call. -/
def batchRows (ids : List String) (md : List DocMetadata) :
    List (List (ℚ × ℤ)) → Except String (List (List SearchResult))
  | [] => .ok []
  | row :: rest => do
    let r ← batchFormatRow ids md row
    let rs ← batchRows ids md rest
    return r :: rs

/-- Model of `VectorStore.batch_search`: raises when the index is not
built, otherwise the FAISS batch call scores every row independently and
the per-row formatting loop runs on each row in order. -/
def VectorStore.batch_search (vs : VectorStore) (qs : List Vec) (k : ℕ) :
    Except String (List (List SearchResult)) :=
  match vs.index with
  | none => .error "Index not built. Call build_index() first."
  | some vecs =>
    batchRows vs.doc_ids vs.metadata (qs.map (fun q => topkSelect (scoredEntries vecs q) k))

/-- Logical content of the three files `save` writes and `load` reads:
the serialized index, the pickled identifier list, the metadata JSON
array. -/
structure PersistedStore where
  index_vectors : List Vec
  doc_ids : List String
  metadata : List DocMetadata
deriving DecidableEq

/-- Model of `VectorStore.load` (lines 193-217): reads the three files and
assigns them to the three fields.  The source performs no consistency
check of any kind between the three collections, so the model is a total
function. -/
def VectorStore.load (vs : VectorStore) (p : PersistedStore) : VectorStore :=
  { vs with index := some p.index_vectors, doc_ids := p.doc_ids, metadata := p.metadata }

/-- Number of vectors held by the FAISS index (`index.ntotal`; 0 when not
built). -/
def VectorStore.indexCount (vs : VectorStore) : ℕ :=
  match vs.index with
  | some vecs => vecs.length
  | none => 0

/-- The store invariant the spec states for §3 (`len(ids) == len(metadata)
== index.count`), which `build_index` asserts at build time. -/
def storeConsistent (vs : VectorStore) : Prop :=
  vs.doc_ids.length = vs.metadata.length ∧ vs.indexCount = vs.doc_ids.length

instance (vs : VectorStore) : Decidable (storeConsistent vs) := by
  unfold storeConsistent; infer_instance

/-! ### RAG service (src/rag_service.py) -/

/-- Outcome of looking one document up in the on-disk store
(`data/raw/{doc_id}.json`): the file may be absent, it may exist but fail
to read or parse, or it may yield the full judgment text (the value of the
`doc` key, defaulting to the empty string). -/
inductive DocLookup
  | missing
  | errorLoading
  | found (full_text : String)
deriving DecidableEq

/-- The document store collaborator, keyed by doc_id. -/
abbrev DocStore := String → DocLookup

/-- Judgment excerpt computed by `format_context` (lines 109-119): empty
when the file does not exist, the bracketed error marker when reading or
parsing raised, otherwise the text truncated to 2000 characters with a
`...` marker appended when cut. -/
def judgmentText (lookup : DocLookup) : String :=
  match lookup with
  | .missing => ""
  | .errorLoading => "[Error loading judgment text]"
  | .found t => if 2000 < t.length then t.take 2000 ++ "..." else t

/-- Reading of a metadata field, as the Python `meta.get(key, "Unknown")`. -/
def metaGet (field : Option String) : String := field.getD "Unknown"

/-- Decimal rendering of a score to three places, modelling the f-string
format `{doc['score']:.3f}`. -/
def formatScore3 (s : ℚ) : String :=
  let m : ℤ := round (s * 1000)
  let sign := if m < 0 then "-" else ""
  let n := m.natAbs
  let frac := n % 1000
  let pad := if frac < 10 then "00" else if frac < 100 then "0" else ""
  sign ++ toString (n / 1000) ++ "." ++ pad ++ toString frac

/-- One context block of `format_context` (the triple-quoted f-string of
lines 121-133), for the case with 1-based ordinal `i` and judgment
excerpt `jt`. -/
def contextBlock (i : ℕ) (doc : SearchResult) (jt : String) : String :=
  "\n===== CASE " ++ toString i ++ " =====\nTitle: " ++ metaGet doc.metadata.title ++
  "\nCourt: " ++ metaGet doc.metadata.court ++
  "\nDate: " ++ metaGet doc.metadata.date ++
  "\nCase Number: " ++ metaGet doc.metadata.casenumber ++
  "\nRelevance Score: " ++ formatScore3 doc.score ++
  "\n\nJudgment Excerpt:\n" ++ jt ++ "\n\n==================\n"

/-- The `context_parts` list built by `format_context`, enumerating the
retrieved documents from ordinal `i` upward; each block resolves only its
own document. -/
def contextPartsAux (store : DocStore) : ℕ → List SearchResult → List String
  | _, [] => []
  | i, d :: ds =>
    contextBlock i d (judgmentText (store d.doc_id)) :: contextPartsAux store (i + 1) ds

/-- The `context_parts` list of `format_context`, enumerated from 1 as in
`enumerate(retrieved_docs, 1)`. -/
def contextParts (store : DocStore) (docs : List SearchResult) : List String :=
  contextPartsAux store 1 docs

/-- Model of `RAGService.format_context`. -/
def format_context (store : DocStore) (docs : List SearchResult) : String :=
  if docs.isEmpty then "No relevant case law found."
  else String.intercalate "\n" (contextParts store docs)

/-- Citation record produced by `RAGService._format_citation`. -/
structure Citation where
  title : String
  court : String
  date : String
  case_number : String
  relevance_score : ℚ
  doc_id : String
deriving DecidableEq

/-- Python `round(x, 3)` on the score (decimal rounding model). -/
def round3 (s : ℚ) : ℚ := (round (s * 1000) : ℤ) / 1000

/-- Model of `RAGService._format_citation`. -/
def formatCitation (doc : SearchResult) : Citation :=
  { title := metaGet doc.metadata.title
    court := metaGet doc.metadata.court
    date := metaGet doc.metadata.date
    case_number := metaGet doc.metadata.casenumber
    relevance_score := round3 doc.score
    doc_id := doc.doc_id }

/-- Response dict assembled by `generate_answer` / `ask`.  Keys a branch
does not set are `none` / empty. -/
structure AnswerResponse where
  answer : String
  confidence : String
  citations : List Citation
  suggestion : Option String
  warning : Option String
  error : Option String
  model : Option String
  retrieved_cases : Option ℕ
  query : Option String
deriving DecidableEq

/-- Response with every optional key absent, the base the branches of
`generate_answer` extend. -/
def emptyResponse : AnswerResponse :=
  { answer := "", confidence := "", citations := [], suggestion := none, warning := none,
    error := none, model := none, retrieved_cases := none, query := none }

/-- The Groq chat-completion collaborator: system prompt and user prompt
in, either the generated text or a raised exception's message out. -/
abbrev Generator := String → String → Except String String

/-- System prompt of the low-confidence tier (lines 169-175). -/
def lowConfSystemPrompt : String :=
  "You are a legal AI assistant. You have limited matching cases for this query.\nProvide a general answer based on your knowledge of Indian law, but CLEARLY state:\n1. That you don't have strong case law matches\n2. This is general information only\n3. User should consult a lawyer or indiankanoon.org\n\nKeep it brief and helpful."

/-- User prompt of the low-confidence tier (lines 177-182). -/
def lowConfUserPrompt (query context : String) : String :=
  "Question: " ++ query ++ "\n\nLimited case matches found:\n" ++ context ++
  "\n\nProvide a brief, general answer about this legal topic in Indian law, but clearly state this is general information and not based on strong case precedents. Recommend consulting a lawyer."

/-- System prompt of the high-confidence structured tier (lines 215-250). -/
def highConfSystemPrompt : String :=
  "You are a legal AI assistant specializing in Indian law.\n\nANSWER STRUCTURE (FOLLOW EXACTLY):\n\n1. GENERAL ANSWER FIRST (2-3 sentences):\n   - Start with the general legal principle about this topic in Indian law\n   - Use your knowledge of Indian law to give a helpful overview\n   \n2. CASE-BY-CASE ANALYSIS:\n   - For EACH retrieved case, explain:\n     * How it relates to the question\n     * What legal principle or ruling it establishes\n     * Key relevant points from the judgment\n   \n3. CONFIDENCE ASSESSMENT:\n   - State whether the cases strongly support your answer or are tangentially related\n\nFORMAT EXAMPLE:\n\"Under Indian law, [general principle]...\n\nRetrieved Case Analysis:\n\nCase 1: [Title]\nThis case relates to the question because [explanation]. The court held that [key point from judgment]. This is relevant as [connection to query].\n\nCase 2: [Title]\nThis judgment addresses [aspect of question]. The Supreme Court ruled [key principle]. This supports the general principle that [connection].\n\nOverall, the retrieved cases [strongly support / partially address / tangentially relate to] the question.\"\n\nCRITICAL RULES:\n- Start with general answer, then discuss cases\n- Analyze each case individually - explain its relevance\n- Never say cases \"don't answer\" if they're related - explain how they relate\n- Be specific about what each case says\n- Ground your general answer in the case law when possible"

/-- User prompt of the high-confidence structured tier (lines 252-268). -/
def highConfUserPrompt (query context : String) : String :=
  "Question: " ++ query ++ "\n\nBelow are relevant Supreme Court judgments with excerpts:\n\n" ++
  context ++
  "\n\nInstructions:\n1. First, provide a general answer about this topic in Indian law (2-3 sentences)\n2. Then analyze EACH case above individually:\n   - Explain how it relates to the question\n   - State what it says about the issue\n   - Highlight key relevant points\n3. End with a brief confidence statement about how well the cases address the question\n\nRemember: Even if cases are tangentially related, explain HOW they relate. Don't dismiss them.\n\nAnswer:"

/-- Fixed fallback answer of the no-match branch (line 157). -/
def noMatchAnswer : String :=
  "I couldn't find relevant case law in my database for your question. However, I can provide general information: Please note this is general knowledge, not based on specific case precedents. For authoritative answers, consult indiankanoon.org or a legal professional."

/-- Apology answer of the low-tier error branch (line 206). -/
def lowErrorAnswer : String :=
  "I found limited relevant cases and encountered an error. Please rephrase your question."

/-- Apology answer of the high-tier error branch (line 304). -/
def highErrorAnswer : String :=
  "I encountered an error while processing your question. Please try again."

/-- Configuration of `RAGService` (embedding model, Groq client and the
document store are passed separately as opaque collaborators). -/
structure RAGService where
  vector_store : VectorStore
  llm_model : String
  similarity_threshold : ℚ
deriving DecidableEq

/-- Model of `RAGService.retrieve_documents`: embed the query, then search
the vector store with `k = top_k` and the configured similarity
threshold. -/
def RAGService.retrieve_documents (svc : RAGService) (embed : String → Vec)
    (query : String) (top_k : ℕ) : Except String (List SearchResult) :=
  svc.vector_store.search (embed query) top_k (some svc.similarity_threshold)

/-- Model of `RAGService.generate_answer` (lines 137-307).  Besides the
response, the model returns the list of (system prompt, user prompt)
pairs passed to the chat-completion collaborator, so that theorems can
speak about which calls were made. -/
def RAGService.generate_answer (svc : RAGService) (gen : Generator) (store : DocStore)
    (query : String) (retrieved_docs : List SearchResult) :
    AnswerResponse × List (String × String) :=
  match retrieved_docs with
  | [] =>
    ({ emptyResponse with
        answer := noMatchAnswer
        confidence := "low"
        citations := []
        suggestion := some "Try rephrasing your question or search on indiankanoon.org" }, [])
  | d :: _ =>
    let best_score := d.score
    if best_score < 0.55 then
      let context := format_context store retrieved_docs
      let sys := lowConfSystemPrompt
      let usr := lowConfUserPrompt query context
      match gen sys usr with
      | .ok text =>
        ({ emptyResponse with
            answer := text.trim
            confidence := "low"
            citations := retrieved_docs.map formatCitation
            warning := some "Limited case law matches. This response uses general legal knowledge. Consult a lawyer for specific advice." },
          [(sys, usr)])
      | .error e =>
        ({ emptyResponse with
            error := some e
            answer := lowErrorAnswer
            confidence := "error"
            citations := [] }, [(sys, usr)])
    else
      let context := format_context store retrieved_docs
      let sys := highConfSystemPrompt
      let usr := highConfUserPrompt query context
      match gen sys usr with
      | .ok text =>
        let confidence := if 0.65 < best_score then "high"
          else if 0.55 < best_score then "medium" else "low"
        ({ emptyResponse with
            answer := text.trim
            confidence := confidence
            citations := retrieved_docs.map formatCitation
            model := some svc.llm_model
            retrieved_cases := some retrieved_docs.length }, [(sys, usr)])
      | .error e =>
        ({ emptyResponse with
            error := some ("Error generating answer: " ++ e)
            answer := highErrorAnswer
            confidence := "error"
            citations := [] }, [(sys, usr)])

/-- Model of `RAGService.ask`: retrieve, generate, then attach the query
to the response.  An exception raised by retrieval propagates (the source
does not catch it); `generate_answer` itself never raises. -/
def RAGService.ask (svc : RAGService) (embed : String → Vec) (gen : Generator)
    (store : DocStore) (query : String) (top_k : ℕ) :
    Except String (AnswerResponse × List (String × String)) :=
  match svc.retrieve_documents embed query top_k with
  | .error e => .error e
  | .ok retrieved_docs =>
    let out := svc.generate_answer gen store query retrieved_docs
    .ok ({ out.1 with query := some query }, out.2)

/-! ### Concrete fixtures used by witnesses and counterexamples -/

deriving instance DecidableEq for Except

/-- Sample metadata record. -/
def mdT : DocMetadata := ⟨some "T", some "C", some "D", some "N"⟩

/-- A hit whose score is exactly 0.55, the tier boundary. -/
def doc055 : SearchResult := ⟨"d1", mkRat 55 100, mdT⟩

/-- A generator that always succeeds. -/
def genOK : Generator := fun _ _ => .ok " ANS "

/-- A generator that always raises. -/
def genBoom : Generator := fun _ _ => .error "boom"

/-- A document store in which every file is missing. -/
def storeM : DocStore := fun _ => .missing

/-- A two-document store with orthogonal unit vectors. -/
def vsT : VectorStore :=
  { dimension := 2, index := some [[1, 0], [0, 1]], doc_ids := ["a", "b"],
    metadata := [mdT, mdT] }

/-- A built store holding no documents at all. -/
def vsE : VectorStore :=
  { dimension := 2, index := some [], doc_ids := [], metadata := [] }

/-- Expected hit for the first stored vector of `vsT`. -/
def resA : SearchResult := ⟨"a", 1, mdT⟩

/-- Expected hit for the second stored vector of `vsT`. -/
def resB : SearchResult := ⟨"b", 1, mdT⟩

/-- Embedding collaborator returning a fixed query vector. -/
def embed0 : String → Vec := fun _ => [1, 0]

/-- Service around an unbuilt store (`generate_answer` never touches the
store, so this suffices for the generation-side fixtures). -/
def svc0 : RAGService :=
  { vector_store := VectorStore.init 4, llm_model := "llama-3.3-70b-versatile",
    similarity_threshold := mkRat 45 100 }

/-- Service around `vsT`. -/
def svcT : RAGService :=
  { vector_store := vsT, llm_model := "llama-3.3-70b-versatile",
    similarity_threshold := mkRat 45 100 }

/-- Service around the empty store `vsE`. -/
def svcE : RAGService :=
  { vector_store := vsE, llm_model := "llama-3.3-70b-versatile",
    similarity_threshold := mkRat 45 100 }

/-- Persisted collections with disagreeing lengths: two index vectors, one
identifier, three metadata entries. -/
def badPersisted : PersistedStore :=
  { index_vectors := [[1, 0], [0, 1]], doc_ids := ["d1"], metadata := [mdT, mdT, mdT] }

/-! ### Helper lemmas about the FAISS model -/

theorem length_insertDesc (x : ℚ × ℤ) (l : List (ℚ × ℤ)) :
    (insertDesc x l).length = l.length + 1 := by
  induction l with
  | nil => rfl
  | cons y ys ih =>
    simp only [insertDesc]
    by_cases h : y.1 ≤ x.1
    · simp [h]
    · simp [h, ih]

theorem length_sortDesc (l : List (ℚ × ℤ)) : (sortDesc l).length = l.length := by
  induction l with
  | nil => rfl
  | cons x xs ih => simp [sortDesc, length_insertDesc, ih]

theorem length_topkSelect (entries : List (ℚ × ℤ)) (k : ℕ) :
    (topkSelect entries k).length = k := by
  simp only [topkSelect, List.length_append, List.length_take, List.length_replicate,
    length_sortDesc]
  omega

theorem length_scoredEntriesAux (q : Vec) (vecs : List Vec) (i : ℤ) :
    (scoredEntriesAux q vecs i).length = vecs.length := by
  induction vecs generalizing i with
  | nil => rfl
  | cons v vs ih => simp [scoredEntriesAux, ih]

theorem length_scoredEntries (vecs : List Vec) (q : Vec) :
    (scoredEntries vecs q).length = vecs.length :=
  length_scoredEntriesAux q vecs 0

/-- Every result the formatting loop keeps comes with a count bound and an
identifier read out of `ids`. -/
theorem formatResults_ok_spec (ids : List String) (md : List DocMetadata)
    (threshold : Option ℚ) :
    ∀ pairs rs, formatResults ids md threshold pairs = .ok rs →
      rs.length ≤ pairs.length ∧ ∀ r ∈ rs, r.doc_id ∈ ids := by
  intro pairs
  induction pairs with
  | nil =>
    intro rs h
    simp only [formatResults] at h
    cases h
    exact ⟨Nat.le_refl _, by intro r hr; cases hr⟩
  | cons p rest ih =>
    intro rs h
    obtain ⟨s, idx⟩ := p
    simp only [formatResults] at h
    by_cases hth : thresholdSkip threshold s
    · rw [if_pos hth] at h
      obtain ⟨hlen, hmem⟩ := ih rs h
      exact ⟨Nat.le_succ_of_le hlen, hmem⟩
    · rw [if_neg hth] at h
      by_cases hidx : idx < 0 ∨ (ids.length : ℤ) ≤ idx
      · rw [if_pos hidx] at h
        obtain ⟨hlen, hmem⟩ := ih rs h
        exact ⟨Nat.le_succ_of_le hlen, hmem⟩
      · rw [if_neg hidx] at h
        rcases hid : ids[idx.toNat]? with _ | d <;> rcases hmd : md[idx.toNat]? with _ | m <;>
          rw [hid, hmd] at h
        · cases h
        · cases h
        · cases h
        · rcases hrec : formatResults ids md threshold rest with e | rs'
          · rw [hrec] at h; cases h
          · rw [hrec] at h
            simp only [Except.map] at h
            cases h
            obtain ⟨hlen, hmem⟩ := ih rs' hrec
            refine ⟨Nat.succ_le_succ hlen, ?_⟩
            intro r hr
            rcases List.mem_cons.mp hr with hr | hr
            · obtain ⟨hb, hget⟩ := List.getElem?_eq_some.mp hid
              subst hr
              subst hget
              exact List.getElem_mem hb
            · exact hmem r hr

/-- Claim C5: every successful `search` call returns at most `k` results,
and every returned identifier is an element of the stored `doc_ids`
list. -/
theorem search_count_le_k_and_ids_member (vs : VectorStore) (q : Vec) (k : ℕ)
    (threshold : Option ℚ) (rs : List SearchResult)
    (h : vs.search q k threshold = .ok rs) :
    rs.length ≤ k ∧ ∀ r ∈ rs, r.doc_id ∈ vs.doc_ids := by
  unfold VectorStore.search at h
  rcases hix : vs.index with _ | vecs <;> rw [hix] at h
  · cases h
  · obtain ⟨hlen, hmem⟩ := formatResults_ok_spec vs.doc_ids vs.metadata threshold _ rs h
    refine ⟨?_, hmem⟩
    calc rs.length ≤ (topkSelect (scoredEntries vecs q) k).length := hlen
      _ = k := length_topkSelect _ _

/-- Raising the threshold can only remove results from the formatting
loop: with `t1 ≤ t2`, every entry the `t2` run keeps the `t1` run keeps
too. -/
theorem formatResults_threshold_mono (ids : List String) (md : List DocMetadata)
    (t1 t2 : ℚ) (hle : t1 ≤ t2) :
    ∀ pairs r1 r2, formatResults ids md (some t1) pairs = .ok r1 →
      formatResults ids md (some t2) pairs = .ok r2 → r2.length ≤ r1.length := by
  intro pairs
  induction pairs with
  | nil =>
    intro r1 r2 h1 h2
    simp only [formatResults] at h1 h2
    cases h1; cases h2
    exact Nat.le_refl 0
  | cons p rest ih =>
    intro r1 r2 h1 h2
    obtain ⟨s, idx⟩ := p
    simp only [formatResults, thresholdSkip] at h1 h2
    by_cases hs1 : s < t1
    · have hs2 : s < t2 := lt_of_lt_of_le hs1 hle
      rw [if_pos (by simpa using hs1)] at h1
      rw [if_pos (by simpa using hs2)] at h2
      exact ih r1 r2 h1 h2
    · rw [if_neg (by simpa using hs1)] at h1
      by_cases hs2 : s < t2
      · rw [if_pos (by simpa using hs2)] at h2
        by_cases hidx : idx < 0 ∨ (ids.length : ℤ) ≤ idx
        · rw [if_pos hidx] at h1
          exact ih r1 r2 h1 h2
        · rw [if_neg hidx] at h1
          rcases hid : ids[idx.toNat]? with _ | d <;> rcases hmd : md[idx.toNat]? with _ | m <;>
            rw [hid, hmd] at h1
          · cases h1
          · cases h1
          · cases h1
          · rcases hrec : formatResults ids md (some t1) rest with e | rs1 <;> rw [hrec] at h1
            · cases h1
            · simp only [Except.map] at h1
              cases h1
              exact Nat.le_succ_of_le (ih rs1 r2 hrec h2)
      · rw [if_neg (by simpa using hs2)] at h2
        by_cases hidx : idx < 0 ∨ (ids.length : ℤ) ≤ idx
        · rw [if_pos hidx] at h1
          rw [if_pos hidx] at h2
          exact ih r1 r2 h1 h2
        · rw [if_neg hidx] at h1
          rw [if_neg hidx] at h2
          rcases hid : ids[idx.toNat]? with _ | d <;> rcases hmd : md[idx.toNat]? with _ | m <;>
            rw [hid, hmd] at h1 h2
          · cases h1
          · cases h1
          · cases h1
          · rcases hrec1 : formatResults ids md (some t1) rest with e | rs1 <;> rw [hrec1] at h1
            · cases h1
            · rcases hrec2 : formatResults ids md (some t2) rest with e | rs2 <;> rw [hrec2] at h2
              · cases h2
              · simp only [Except.map] at h1 h2
                cases h1; cases h2
                exact Nat.succ_le_succ (ih rs1 rs2 hrec1 hrec2)

/-- Claim C6: for the same built index, query and `k`, raising the score
threshold never increases the number of results `search` returns. -/
theorem search_threshold_monotone (vs : VectorStore) (q : Vec) (k : ℕ) (t1 t2 : ℚ)
    (r1 r2 : List SearchResult) (hle : t1 ≤ t2)
    (h1 : vs.search q k (some t1) = .ok r1) (h2 : vs.search q k (some t2) = .ok r2) :
    r2.length ≤ r1.length := by
  unfold VectorStore.search at h1 h2
  rcases hix : vs.index with _ | vecs <;> rw [hix] at h1 h2
  · cases h1
  · exact formatResults_threshold_mono vs.doc_ids vs.metadata t1 t2 hle _ r1 r2 h1 h2

/-- When the metadata list covers the identifier list, the formatting loop
never raises, and it keeps at most one result per entry with a
non-negative index. -/
theorem formatResults_ok_of_cover (ids : List String) (md : List DocMetadata)
    (threshold : Option ℚ) (hcov : ids.length ≤ md.length) :
    ∀ pairs, ∃ rs, formatResults ids md threshold pairs = .ok rs ∧
      rs.length ≤ pairs.countP (fun p => decide (0 ≤ p.2)) := by
  intro pairs
  induction pairs with
  | nil => exact ⟨[], rfl, Nat.le_refl 0⟩
  | cons p rest ih =>
    obtain ⟨s, idx⟩ := p
    obtain ⟨rs, hrec, hlen⟩ := ih
    have hcount : rest.countP (fun p => decide (0 ≤ p.2)) ≤
        (((s, idx) : ℚ × ℤ) :: rest).countP (fun p => decide (0 ≤ p.2)) := by
      rw [List.countP_cons]; omega
    by_cases hth : thresholdSkip threshold s
    · refine ⟨rs, ?_, Nat.le_trans hlen hcount⟩
      simp only [formatResults]
      rw [if_pos hth]
      exact hrec
    · by_cases hidx : idx < 0 ∨ (ids.length : ℤ) ≤ idx
      · refine ⟨rs, ?_, Nat.le_trans hlen hcount⟩
        simp only [formatResults]
        rw [if_neg hth, if_pos hidx]
        exact hrec
      · have hge : (0 : ℤ) ≤ idx := by omega
        have hlt : idx < (ids.length : ℤ) := by omega
        have hbound : idx.toNat < ids.length := by omega
        have hbound2 : idx.toNat < md.length := Nat.lt_of_lt_of_le hbound hcov
        refine ⟨⟨ids[idx.toNat], s, md[idx.toNat]⟩ :: rs, ?_, ?_⟩
        · simp only [formatResults]
          rw [if_neg hth, if_neg hidx, List.getElem?_eq_getElem hbound,
            List.getElem?_eq_getElem hbound2, hrec]
          rfl
        · rw [List.countP_cons]
          simp only [decide_eq_true hge, if_pos]
          exact Nat.succ_le_succ hlen

/-- The FAISS call pads unfilled slots with index -1, so at most
`entries.length` of the returned `k` slots carry a non-negative index. -/
theorem topkSelect_valid_count (entries : List (ℚ × ℤ)) (k : ℕ) :
    (topkSelect entries k).countP (fun p => decide (0 ≤ p.2)) ≤ entries.length := by
  simp only [topkSelect, List.countP_append, List.countP_replicate]
  have h1 : ((sortDesc entries).take k).countP (fun p => decide (0 ≤ p.2)) ≤
      ((sortDesc entries).take k).length := List.countP_le_length _
  have h2 : ((sortDesc entries).take k).length ≤ (sortDesc entries).length := by
    rw [List.length_take]
    exact min_le_right _ _
  have h3 : (decide ((0 : ℤ) ≤ (paddingScore, (-1 : ℤ)).2)) = false := by decide
  rw [h3]
  simp only [Bool.false_eq_true, if_false]
  have h4 := length_sortDesc entries
  omega

/-- Claim C8: on a built, covered store, any `top_k` (also one larger than
the index's document count) is clamped, not rejected: `retrieve_documents`
succeeds and returns at most as many hits as the index holds vectors. -/
theorem retrieve_documents_clamps_top_k (svc : RAGService) (embed : String → Vec)
    (query : String) (top_k : ℕ) (vecs : List Vec)
    (hidx : svc.vector_store.index = some vecs)
    (hcov : svc.vector_store.doc_ids.length ≤ svc.vector_store.metadata.length) :
    ∃ rs, svc.retrieve_documents embed query top_k = .ok rs ∧ rs.length ≤ vecs.length := by
  obtain ⟨rs, hok, hlen⟩ := formatResults_ok_of_cover svc.vector_store.doc_ids
    svc.vector_store.metadata (some svc.similarity_threshold) hcov
    (topkSelect (scoredEntries vecs (embed query)) top_k)
  refine ⟨rs, ?_, ?_⟩
  · unfold RAGService.retrieve_documents VectorStore.search
    rw [hidx]
    exact hok
  · calc rs.length ≤ _ := hlen
      _ ≤ (scoredEntries vecs (embed query)).length := topkSelect_valid_count _ _
      _ = vecs.length := length_scoredEntries _ _

/-- The per-row loop of `batch_search` is the loop of `search` with no
threshold: `idx >= 0 and idx < len(doc_ids)` is the negation of
`idx < 0 or idx >= len(doc_ids)`. -/
theorem batchFormatRow_eq_formatResults (ids : List String) (md : List DocMetadata) :
    ∀ row, batchFormatRow ids md row = formatResults ids md none row := by
  intro row
  induction row with
  | nil => rfl
  | cons p rest ih =>
    obtain ⟨s, idx⟩ := p
    by_cases hval : 0 ≤ idx ∧ idx < (ids.length : ℤ)
    · have hinv : ¬(idx < 0 ∨ (ids.length : ℤ) ≤ idx) := by omega
      simp only [batchFormatRow, formatResults, thresholdSkip, Bool.false_eq_true, if_false,
        if_pos hval, if_neg hinv, ih]
    · have hinv : idx < 0 ∨ (ids.length : ℤ) ≤ idx := by omega
      simp only [batchFormatRow, formatResults, thresholdSkip, Bool.false_eq_true, if_false,
        if_neg hval, if_pos hinv, ih]

theorem batchRows_length (ids : List String) (md : List DocMetadata) :
    ∀ rows out, batchRows ids md rows = .ok out → out.length = rows.length := by
  intro rows
  induction rows with
  | nil =>
    intro out h
    simp only [batchRows] at h
    cases h
    rfl
  | cons row rest ih =>
    intro out h
    simp only [batchRows, bind, Except.bind] at h
    rcases hrow : batchFormatRow ids md row with e | r <;> rw [hrow] at h
    · cases h
    · rcases hrest : batchRows ids md rest with e | rs <;> rw [hrest] at h
      · cases h
      · simp only [pure, Except.pure] at h
        cases h
        simp [ih rs hrest]

theorem batchRows_getElem (ids : List String) (md : List DocMetadata) :
    ∀ (rows : List (List (ℚ × ℤ))) (out : List (List SearchResult)),
      batchRows ids md rows = .ok out →
      ∀ (i : ℕ) (row : List (ℚ × ℤ)), rows[i]? = some row →
        ∃ r, out[i]? = some r ∧ batchFormatRow ids md row = .ok r := by
  intro rows
  induction rows with
  | nil =>
    intro out h i row hi
    simp at hi
  | cons row0 rest ih =>
    intro out h i row hi
    simp only [batchRows, bind, Except.bind] at h
    rcases hrow : batchFormatRow ids md row0 with e | r <;> rw [hrow] at h
    · cases h
    · rcases hrest : batchRows ids md rest with e | rs <;> rw [hrest] at h
      · cases h
      · simp only [pure, Except.pure] at h
        cases h
        match i with
        | 0 =>
          simp only [List.getElem?_cons_zero, Option.some.injEq] at hi
          subst hi
          exact ⟨r, by simp, hrow⟩
        | i + 1 =>
          simp only [List.getElem?_cons_succ] at hi
          simp only [List.getElem?_cons_succ]
          exact ih rs hrest i row hi

/-- Claim C9: on a built index, every successful `batch_search` result has
one result list per query row, and its `i`-th list is exactly what
`search` returns on the `i`-th row alone with the same `k`, no threshold
and the same invalid-index filtering — no interaction between rows. -/
theorem batch_search_matches_search (vs : VectorStore) (qs : List Vec) (k : ℕ)
    (vecs : List Vec) (out : List (List SearchResult))
    (hidx : vs.index = some vecs) (h : vs.batch_search qs k = .ok out) :
    out.length = qs.length ∧
    ∀ (i : ℕ) (q : Vec), qs[i]? = some q →
      ∃ r, out[i]? = some r ∧ vs.search q k none = .ok r := by
  unfold VectorStore.batch_search at h
  rw [hidx] at h
  constructor
  · rw [batchRows_length _ _ _ out h, List.length_map]
  · intro i q hq
    have hrow : (qs.map (fun q => topkSelect (scoredEntries vecs q) k))[i]? =
        some (topkSelect (scoredEntries vecs q) k) := by
      rw [List.getElem?_map, hq]
      rfl
    obtain ⟨r, hout, hfmt⟩ := batchRows_getElem _ _ _ out h i _ hrow
    refine ⟨r, hout, ?_⟩
    unfold VectorStore.search
    rw [hidx]
    show formatResults vs.doc_ids vs.metadata none (topkSelect (scoredEntries vecs q) k) =
      Except.ok r
    rw [← batchFormatRow_eq_formatResults]
    exact hfmt

/-! ### Context building (claim C7) -/

theorem contextPartsAux_length (store : DocStore) :
    ∀ (docs : List SearchResult) (j : ℕ), (contextPartsAux store j docs).length = docs.length := by
  intro docs
  induction docs with
  | nil => intro j; rfl
  | cons d ds ih => intro j; simp [contextPartsAux, ih]

theorem contextPartsAux_getElem (store : DocStore) :
    ∀ (docs : List SearchResult) (j i : ℕ),
      (contextPartsAux store j docs)[i]? =
        (docs[i]?).map (fun d => contextBlock (j + i) d (judgmentText (store d.doc_id))) := by
  intro docs
  induction docs with
  | nil => intro j i; simp [contextPartsAux]
  | cons d ds ih =>
    intro j i
    match i with
    | 0 => simp [contextPartsAux]
    | i + 1 =>
      simp only [contextPartsAux, List.getElem?_cons_succ]
      rw [ih (j + 1) i, show j + 1 + i = j + (i + 1) from by omega]

/-- Claim C7 (amended): the context build never aborts — every hit gets its
own block, each block depending only on its own document's lookup; a
document whose file exists but fails to read or parse gets the explicit
placeholder, while a document whose file is missing gets an empty
excerpt. -/
theorem context_build_isolates_failures (store : DocStore) (docs : List SearchResult)
    (hne : docs ≠ []) :
    (contextParts store docs).length = docs.length ∧
    (∀ (i : ℕ) (d : SearchResult), docs[i]? = some d →
      (contextParts store docs)[i]? =
        some (contextBlock (i + 1) d (judgmentText (store d.doc_id)))) ∧
    (∀ d : SearchResult, store d.doc_id = .errorLoading →
      judgmentText (store d.doc_id) = "[Error loading judgment text]") ∧
    (∀ d : SearchResult, store d.doc_id = .missing → judgmentText (store d.doc_id) = "") ∧
    format_context store docs = String.intercalate "\n" (contextParts store docs) := by
  refine ⟨contextPartsAux_length store docs 1, ?_, ?_, ?_, ?_⟩
  · intro i d hd
    unfold contextParts
    rw [contextPartsAux_getElem store docs 1 i, hd, show 1 + i = i + 1 from by omega]
    rfl
  · intro d h
    rw [h]
    rfl
  · intro d h
    rw [h]
    rfl
  · have hemp : docs.isEmpty = false := by
      simpa [List.isEmpty_iff] using hne
    simp [format_context, hemp]

/-- Witness for C7 at a one-hit list over the all-missing store. -/
theorem context_build_isolates_failures_witness :
    (contextParts storeM [doc055]).length = [doc055].length ∧
    (∀ (i : ℕ) (d : SearchResult), ([doc055] : List SearchResult)[i]? = some d →
      (contextParts storeM [doc055])[i]? =
        some (contextBlock (i + 1) d (judgmentText (storeM d.doc_id)))) ∧
    (∀ d : SearchResult, storeM d.doc_id = .errorLoading →
      judgmentText (storeM d.doc_id) = "[Error loading judgment text]") ∧
    (∀ d : SearchResult, storeM d.doc_id = .missing → judgmentText (storeM d.doc_id) = "") ∧
    format_context storeM [doc055] = String.intercalate "\n" (contextParts storeM [doc055]) :=
  context_build_isolates_failures storeM [doc055] (List.cons_ne_nil doc055 [])

/-- Counterexample for C7 as stated: for a concrete hit whose document
file is missing, the excerpt placed in its block is the empty string, not
an explicit placeholder (the only placeholder the source ever produces is
the bracketed error marker, used when the file exists but fails to
load). -/
theorem missing_doc_gets_no_placeholder :
    storeM "d1" = DocLookup.missing ∧
    judgmentText (storeM "d1") = "" ∧
    judgmentText (storeM "d1") ≠ "[Error loading judgment text]" ∧
    contextParts storeM [doc055] = [contextBlock 1 doc055 ""] :=
  ⟨rfl, rfl, by decide, rfl⟩

/-! ### Persistence (claim C4) -/

/-- Claim C4 fails on the source: `load` performs no validation at all, so
collections with disagreeing lengths (two index vectors, one identifier,
three metadata entries) load without any error into a store that violates
the `len(ids) == len(metadata) == index.count` invariant. -/
theorem load_skips_length_validation :
    VectorStore.load (VectorStore.init 1024) badPersisted =
      { dimension := 1024, index := some [[1, 0], [0, 1]], doc_ids := ["d1"],
        metadata := [mdT, mdT, mdT] } ∧
    (VectorStore.load (VectorStore.init 1024) badPersisted).doc_ids.length = 1 ∧
    (VectorStore.load (VectorStore.init 1024) badPersisted).metadata.length = 3 ∧
    (VectorStore.load (VectorStore.init 1024) badPersisted).indexCount = 2 ∧
    ¬ storeConsistent (VectorStore.load (VectorStore.init 1024) badPersisted) := by
  refine ⟨rfl, rfl, rfl, rfl, ?_⟩
  intro hc
  obtain ⟨h1, h2⟩ := hc
  simp [VectorStore.load, VectorStore.init, badPersisted] at h1

/-! ### Answer policy (claims C1, C2, C3) -/

/-- Claim C1 (amended): with a top score of at least 0.55 the
high-confidence structured prompt template is the one sent to the
generator; the final label is "high" for scores above 0.65 and "medium"
for scores strictly between 0.55 and 0.65 — but a score of exactly 0.55,
while it selects the tier-3 template, is labeled "low" (both strict
re-checks fail), not "medium". -/
theorem tier_boundary_prompt_vs_label (svc : RAGService) (gen : Generator) (store : DocStore)
    (q text : String) (d : SearchResult) (tl : List SearchResult)
    (hgen : gen highConfSystemPrompt (highConfUserPrompt q (format_context store (d :: tl))) =
      .ok text) :
    ((0.55 : ℚ) ≤ d.score →
      (svc.generate_answer gen store q (d :: tl)).2 =
        [(highConfSystemPrompt, highConfUserPrompt q (format_context store (d :: tl)))]) ∧
    (d.score = (0.55 : ℚ) →
      (svc.generate_answer gen store q (d :: tl)).1.confidence = "low") ∧
    ((0.65 : ℚ) < d.score →
      (svc.generate_answer gen store q (d :: tl)).1.confidence = "high") ∧
    ((0.55 : ℚ) < d.score → d.score ≤ (0.65 : ℚ) →
      (svc.generate_answer gen store q (d :: tl)).1.confidence = "medium") := by
  refine ⟨?_, ?_, ?_, ?_⟩
  · intro hge
    simp only [RAGService.generate_answer]
    rw [if_neg (not_lt.mpr hge), hgen]
  · intro heq
    simp only [RAGService.generate_answer]
    rw [heq, if_neg (lt_irrefl (0.55 : ℚ)), hgen,
      if_neg (by norm_num : ¬ ((0.65 : ℚ) < 0.55)), if_neg (lt_irrefl (0.55 : ℚ))]
  · intro hgt
    have hns : ¬ d.score < (0.55 : ℚ) :=
      not_lt.mpr (le_of_lt (lt_trans (by norm_num) hgt))
    simp only [RAGService.generate_answer]
    rw [if_neg hns, hgen, if_pos hgt]
  · intro hgt hle
    have hns : ¬ d.score < (0.55 : ℚ) := not_lt.mpr (le_of_lt hgt)
    simp only [RAGService.generate_answer]
    rw [if_neg hns, hgen, if_neg (not_lt.mpr hle), if_pos hgt]

/-- Witness for C1 at a top score of exactly 0.55: the tier-3 template goes
out, the label that comes back is "low". -/
theorem tier_boundary_prompt_vs_label_witness :
    (svc0.generate_answer genOK storeM "q" [doc055]).2 =
      [(highConfSystemPrompt, highConfUserPrompt "q" (format_context storeM [doc055]))] ∧
    (svc0.generate_answer genOK storeM "q" [doc055]).1.confidence = "low" :=
  ⟨(tier_boundary_prompt_vs_label svc0 genOK storeM "q" " ANS " doc055 [] rfl).1
      (by with_unfolding_all decide),
    (tier_boundary_prompt_vs_label svc0 genOK storeM "q" " ANS " doc055 [] rfl).2.1
      (by with_unfolding_all decide)⟩

/-- Counterexample for C1 as stated: at top score exactly 0.55 the source
labels the response "low", not "medium". -/
theorem tier_boundary_label_counterexample :
    doc055.score = (0.55 : ℚ) ∧
    (svc0.generate_answer genOK storeM "q" [doc055]).1.confidence = "low" ∧
    (svc0.generate_answer genOK storeM "q" [doc055]).1.confidence ≠ "medium" := by
  refine ⟨?_, ?_, ?_⟩ <;> with_unfolding_all decide

/-- Claim C2: with zero retrieved hits, `generate_answer` answers with
confidence "low", an empty citations list and no generation call at all,
and `ask` packages the same response. -/
theorem no_match_short_circuits (svc : RAGService) (embed : String → Vec) (gen : Generator)
    (store : DocStore) (q : String) (top_k : ℕ)
    (h : svc.retrieve_documents embed q top_k = .ok []) :
    (svc.generate_answer gen store q []).1.confidence = "low" ∧
    (svc.generate_answer gen store q []).1.citations = [] ∧
    (svc.generate_answer gen store q []).2 = [] ∧
    ∃ resp, svc.ask embed gen store q top_k = .ok (resp, []) ∧
      resp.confidence = "low" ∧ resp.citations = [] := by
  refine ⟨rfl, rfl, rfl, ?_⟩
  unfold RAGService.ask
  rw [h]
  exact ⟨_, rfl, rfl, rfl⟩

/-- Witness for C2 on a built store holding no documents, so that
retrieval comes back empty below any threshold. -/
theorem no_match_short_circuits_witness :
    (svcE.generate_answer genOK storeM "qq" []).1.confidence = "low" ∧
    (svcE.generate_answer genOK storeM "qq" []).1.citations = [] ∧
    (svcE.generate_answer genOK storeM "qq" []).2 = [] ∧
    ∃ resp, svcE.ask embed0 genOK storeM "qq" 5 = .ok (resp, []) ∧
      resp.confidence = "low" ∧ resp.citations = [] :=
  no_match_short_circuits svcE embed0 genOK storeM "qq" 5 (by with_unfolding_all decide)

/-- Claim C3: a failing generation call is always contained: the response
carries confidence "error", empty citations, the tier's generic apology
answer and the underlying message (verbatim in the low tier, prefixed in
the high tier), and `ask` still returns a well-formed response, never the
exception. -/
theorem generation_failure_contained (svc : RAGService) (embed : String → Vec)
    (gen : Generator) (store : DocStore) (q : String) (top_k : ℕ) (e : String)
    (d : SearchResult) (tl : List SearchResult)
    (hgen : ∀ s u, gen s u = .error e) :
    (svc.generate_answer gen store q (d :: tl)).1.confidence = "error" ∧
    (svc.generate_answer gen store q (d :: tl)).1.citations = [] ∧
    (d.score < (0.55 : ℚ) →
      (svc.generate_answer gen store q (d :: tl)).1 =
        { emptyResponse with
            error := some e
            answer := lowErrorAnswer
            confidence := "error"
            citations := [] }) ∧
    ((0.55 : ℚ) ≤ d.score →
      (svc.generate_answer gen store q (d :: tl)).1 =
        { emptyResponse with
            error := some ("Error generating answer: " ++ e)
            answer := highErrorAnswer
            confidence := "error"
            citations := [] }) ∧
    (∀ docs, svc.retrieve_documents embed q top_k = .ok docs →
      ∃ resp calls, svc.ask embed gen store q top_k = .ok (resp, calls)) := by
  have hask : ∀ docs, svc.retrieve_documents embed q top_k = .ok docs →
      ∃ resp calls, svc.ask embed gen store q top_k = .ok (resp, calls) := by
    intro docs hdocs
    unfold RAGService.ask
    rw [hdocs]
    exact ⟨_, _, rfl⟩
  by_cases hs : d.score < (0.55 : ℚ)
  · have hval : (svc.generate_answer gen store q (d :: tl)).1 =
        { emptyResponse with
            error := some e
            answer := lowErrorAnswer
            confidence := "error"
            citations := [] } := by
      simp only [RAGService.generate_answer]
      rw [if_pos hs, hgen]
    exact ⟨by rw [hval], by rw [hval], fun _ => hval,
      fun hge => absurd hs (not_lt.mpr hge), hask⟩
  · have hval : (svc.generate_answer gen store q (d :: tl)).1 =
        { emptyResponse with
            error := some ("Error generating answer: " ++ e)
            answer := highErrorAnswer
            confidence := "error"
            citations := [] } := by
      simp only [RAGService.generate_answer]
      rw [if_neg hs, hgen]
    exact ⟨by rw [hval], by rw [hval], fun hlt => absurd hlt hs, fun _ => hval, hask⟩

/-- Witness for C3 at the 0.55-score hit with an always-failing
generator. -/
theorem generation_failure_contained_witness :
    (svc0.generate_answer genBoom storeM "q" [doc055]).1.confidence = "error" ∧
    (svc0.generate_answer genBoom storeM "q" [doc055]).1.citations = [] :=
  ⟨(generation_failure_contained svc0 embed0 genBoom storeM "q" 5 "boom" doc055 []
      (fun _ _ => rfl)).1,
    (generation_failure_contained svc0 embed0 genBoom storeM "q" 5 "boom" doc055 []
      (fun _ _ => rfl)).2.1⟩

/-! ### Witnesses for the search-side claims -/

/-- Witness for C5 on the two-document store. -/
theorem search_count_le_k_and_ids_member_witness :
    ([resA] : List SearchResult).length ≤ 1 ∧ ∀ r ∈ [resA], r.doc_id ∈ vsT.doc_ids :=
  search_count_le_k_and_ids_member vsT [1, 0] 1 none [resA] (by with_unfolding_all decide)

/-- Witness for C6: raising the threshold from 0.45 to 2 shrinks the
result list from one hit to none. -/
theorem search_threshold_monotone_witness :
    ([] : List SearchResult).length ≤ ([resA] : List SearchResult).length :=
  search_threshold_monotone vsT [1, 0] 5 (mkRat 45 100) (mkRat 2 1) [resA] []
    (by with_unfolding_all decide) (by with_unfolding_all decide)
    (by with_unfolding_all decide)

/-- Witness for C8: `top_k = 5` on a two-document index succeeds and yields
at most two hits. -/
theorem retrieve_documents_clamps_top_k_witness :
    ∃ rs, svcT.retrieve_documents embed0 "housing" 5 = .ok rs ∧
      rs.length ≤ ([[1, 0], [0, 1]] : List Vec).length :=
  retrieve_documents_clamps_top_k svcT embed0 "housing" 5 [[1, 0], [0, 1]] rfl
    (by with_unfolding_all decide)

/-- Witness for C9 on a two-row batch over the two-document store. -/
theorem batch_search_matches_search_witness :
    ([[resA], [resB]] : List (List SearchResult)).length =
      ([[1, 0], [0, 1]] : List Vec).length ∧
    ∀ (i : ℕ) (q : Vec), ([[1, 0], [0, 1]] : List Vec)[i]? = some q →
      ∃ r, ([[resA], [resB]] : List (List SearchResult))[i]? = some r ∧
        vsT.search q 1 none = .ok r :=
  batch_search_matches_search vsT [[1, 0], [0, 1]] 1 [[1, 0], [0, 1]] [[resA], [resB]] rfl
    (by with_unfolding_all decide)

end LegalRag
